import Mathlib

/-
Verification of the PhotoSwipe slideshow plugin (photoswipe-slideshow.esm.js).

The plugin is a single class holding slideshow state: a running flag, the
identifier of the pending timer stored in slideshowTimerID, a wake-lock flag
and sentinel, and the configured delay.  We embed the class fields together
with the observable environment (local storage, the progress-bar element,
pending browser timers, wake-lock call counters) as one state structure, and
each method as a state-transforming function.  JavaScript numbers are embedded
as rationals; NaN-able media fields are embedded as Option values.
-/

set_option autoImplicit false

namespace PhotoSwipeSlideshow

/-- Constant INT32_MAX = 2147483647 from the source. -/
def INT32_MAX : ℚ := 2147483647

/-- Constant HTMLMediaElement.HAVE_ENOUGH_DATA. -/
def HAVE_ENOUGH_DATA : Nat := 4

/-- Constant HTMLMediaElement.NETWORK_IDLE. -/
def NETWORK_IDLE : Nat := 1

/-- Constant HTMLMediaElement.NETWORK_LOADING. -/
def NETWORK_LOADING : Nat := 2

/-- The value of content?.data?.type, restricted to the distinction the code
tests: whether it equals the video type tag. -/
inductive DataType where
  | video
  | other
deriving DecidableEq, Repr

/-- The media element of a video slide, with the fields the plugin reads.
duration and currentTime are none when the corresponding JS number is NaN
(video metadata not yet loaded). -/
structure VideoElement where
  paused : Bool
  duration : Option ℚ
  currentTime : Option ℚ
  ended : Bool
  readyState : Nat
  networkState : Nat
deriving DecidableEq, Repr

/-- A slide content object: its data.type tag (none when content or data is
missing), its media element, and the result of its isLoading() query. -/
structure Content where
  dataType : Option DataType
  element : VideoElement
  isLoading : Bool
deriving DecidableEq, Repr

/-- isVideoContent: content?.data?.type === the video type tag. -/
def isVideoContent (c : Content) : Bool :=
  c.dataType = some DataType.video

/-- The kind of timer stored into this.slideshowTimerID: the main advance
timer (with its captured timeout) from the loaded branch, or the 200 ms
load-polling timer from the not-loaded branch. -/
inductive TimerKind where
  | advance (timeoutMs : ℚ)
  | poll
deriving DecidableEq, Repr

/-- Whether a pending slideshowTimerID timer is an advance timer. -/
def isAdvanceTimer (p : Nat × TimerKind) : Bool :=
  match p.2 with
  | TimerKind.advance _ => true
  | TimerKind.poll => false

/-- The plugin state: the class fields of PhotoSwipeSlideshow together with
the environment it mutates.  pendingMain lists the browser timers that were
set into slideshowTimerID and have neither fired nor been cleared;
pendingDisplay lists the pending 100 ms progress-bar-start timers (which are
never stored or cleared by the code).  releaseCalls and requestCalls count
wake-lock sentinel release() and navigator.wakeLock.request() calls. -/
structure Sys where
  defaultDelayMs : ℚ
  restartOnSlideChange : Bool
  slideshowIsRunning : Bool
  slideshowTimerID : Option Nat
  wakeLockIsRunning : Bool
  wakeLockSentinel : Option Unit
  supportsKeepAwake : Bool
  supportsWakeLock : Bool
  keepAwakeFlag : Bool
  storage : Option ℚ
  hasCounterElement : Bool
  counterText : Option ℚ
  progressBarRunning : Bool
  nextTimerID : Nat
  pendingMain : List (Nat × TimerKind)
  pendingDisplay : List (Nat × ℚ)
  releaseCalls : Nat
  requestCalls : Nat
deriving DecidableEq, Repr

/-- JavaScript truthiness of the currentSlideTimeout argument of
toggleProgressBar: undefined and 0 are falsy. -/
def timeoutTruthy (t : Option ℚ) : Bool :=
  match t with
  | none => false
  | some v => v != 0

/-- toggleProgressBar: with a truthy timeout, mark the progress bar running
(the transition styling is display-only); otherwise remove the running
class. -/
def toggleProgressBar (s : Sys) (currentSlideTimeout : Option ℚ) : Sys :=
  if timeoutTruthy currentSlideTimeout then
    { s with progressBarRunning := true }
  else
    { s with progressBarRunning := false }

/-- resetSlideshow: reset the progress bar, and if slideshowTimerID is set,
clearTimeout it (removing it from the pending timers) and null the field. -/
def resetSlideshow (s : Sys) : Sys :=
  let s1 := toggleProgressBar s none
  match s1.slideshowTimerID with
  | some id =>
      { s1 with
        pendingMain := s1.pendingMain.filter (fun p => p.1 != id),
        slideshowTimerID := none }
  | none => s1

/-- setSlideshowLength: clamp the requested delay to [1000, INT32_MAX] into
options.defaultDelayMs, and write it to Local Storage when the clamp changed
the value. -/
def setSlideshowLength (s : Sys) (newDelay : ℚ) : Sys :=
  let eff := min (max newDelay 1000) INT32_MAX
  let s1 := { s with defaultDelayMs := eff }
  if eff != newDelay then
    { s1 with storage := some eff }
  else
    s1

/-- getSlideTimeout: for video content, the default delay if paused or if
duration/currentTime is NaN, else the remaining duration in milliseconds;
for other content, the default delay.  The current slide content is a
parameter because the code reads it from the global pswp object. -/
def getSlideTimeout (s : Sys) (c : Content) : ℚ :=
  if isVideoContent c then
    if c.element.paused then
      s.defaultDelayMs
    else
      match c.element.duration, c.element.currentTime with
      | some durationSec, some currentTimeSec => (durationSec - currentTimeSec) * 1000
      | _, _ => s.defaultDelayMs
  else
    s.defaultDelayMs

/-- slideContentHasLoaded: a video is loaded once ended, or when readyState
equals HAVE_ENOUGH_DATA and networkState is NETWORK_IDLE or NETWORK_LOADING;
other content is loaded iff isLoading() is false. -/
def slideContentHasLoaded (c : Content) : Bool :=
  if isVideoContent c then
    c.element.ended ||
      (c.element.readyState == HAVE_ENOUGH_DATA &&
        (c.element.networkState == NETWORK_IDLE || c.element.networkState == NETWORK_LOADING))
  else
    !c.isLoading

/-- goToNextSlideAfterTimeout: reset the progress bar and timer, then either
start the advance timer and the 100 ms progress-bar display timer (loaded
content), or start the 200 ms load-polling timer (unloaded content).  Fresh
browser timer identifiers come from nextTimerID. -/
def goToNextSlideAfterTimeout (s : Sys) (c : Content) : Sys :=
  let s1 := resetSlideshow s
  if slideContentHasLoaded c then
    let currentSlideTimeout := getSlideTimeout s1 c
    let advanceID := s1.nextTimerID
    let displayID := s1.nextTimerID + 1
    { s1 with
      slideshowTimerID := some advanceID,
      pendingMain := s1.pendingMain ++ [(advanceID, TimerKind.advance currentSlideTimeout)],
      pendingDisplay := s1.pendingDisplay ++ [(displayID, currentSlideTimeout)],
      nextTimerID := s1.nextTimerID + 2 }
  else
    let pollID := s1.nextTimerID
    { s1 with
      slideshowTimerID := some pollID,
      pendingMain := s1.pendingMain ++ [(pollID, TimerKind.poll)],
      nextTimerID := s1.nextTimerID + 1 }

/-- changeSlideshowLength: return immediately when the slideshow is not
running; otherwise update the delay via setSlideshowLength, unconditionally
save the (new) delay to Local Storage, show the delay in the slide counter
element when present, and restart the slideshow. -/
def changeSlideshowLength (s : Sys) (delta : ℚ) (c : Content) : Sys :=
  if !s.slideshowIsRunning then
    s
  else
    let s1 := setSlideshowLength s (s.defaultDelayMs + delta)
    let s2 := { s1 with storage := some s1.defaultDelayMs }
    let s3 :=
      if s2.hasCounterElement then
        { s2 with counterText := some (s2.defaultDelayMs / 1000) }
      else
        s2
    goToNextSlideAfterTimeout s3 c

/-- toggleWakeLock: no-op when the wake-lock flag already matches the running
flag.  Otherwise use screen.keepAwake when supported; else with the Screen
Wake Lock API, release the sentinel when one is held (its nulling happens in
the asynchronous then-callback) or request a new lock.  In every non-no-op
case the wake-lock flag is synchronously set to the running flag. -/
def toggleWakeLock (s : Sys) : Sys :=
  if s.wakeLockIsRunning == s.slideshowIsRunning then
    s
  else
    let s1 :=
      if s.supportsKeepAwake then
        { s with keepAwakeFlag := s.slideshowIsRunning }
      else if s.supportsWakeLock then
        match s.wakeLockSentinel with
        | some _ => { s with releaseCalls := s.releaseCalls + 1 }
        | none => { s with requestCalls := s.requestCalls + 1 }
      else
        s
    { s1 with wakeLockIsRunning := s1.slideshowIsRunning }

/-- setSlideshowState: invert the running flag, then schedule (started) or
reset (stopped); icon and opacity updates are display-only; finally toggle
the wake lock. -/
def setSlideshowState (s : Sys) (c : Content) : Sys :=
  let s1 := { s with slideshowIsRunning := !s.slideshowIsRunning }
  let s2 :=
    if s1.slideshowIsRunning then
      goToNextSlideAfterTimeout s1 c
    else
      resetSlideshow s1
  toggleWakeLock s2

/-- The close listener installed by init: toggle the slideshow off when it is
running as the gallery closes. -/
def onGalleryClosed (s : Sys) (c : Content) : Sys :=
  if s.slideshowIsRunning then
    setSlideshowState s c
  else
    s

/-- The change listener installed by init: reschedule when running with
restartOnSlideChange enabled. -/
def onSlideChanged (s : Sys) (c : Content) : Sys :=
  if s.slideshowIsRunning && s.restartOnSlideChange then
    goToNextSlideAfterTimeout s c
  else
    s

/-- Firing of a timer stored in slideshowTimerID.  A cleared or already-fired
identifier does nothing.  An advance timer runs pswp.next() — which
synchronously dispatches the change event, handled by onSlideChanged — and
then reschedules itself only when restartOnSlideChange is off.  A polling
timer re-invokes goToNextSlideAfterTimeout. -/
def fireMainTimer (s : Sys) (id : Nat) (c : Content) : Sys :=
  match s.pendingMain.find? (fun p => p.1 == id) with
  | none => s
  | some (_, k) =>
      let s1 := { s with pendingMain := s.pendingMain.filter (fun p => p.1 != id) }
      match k with
      | TimerKind.advance _ =>
          let s2 := onSlideChanged s1 c
          if s2.restartOnSlideChange then
            s2
          else
            goToNextSlideAfterTimeout s2 c
      | TimerKind.poll => goToNextSlideAfterTimeout s1 c

/-- Firing of a pending 100 ms progress-bar display timer: the callback
re-checks slideshowIsRunning before showing the bar with the captured
timeout. -/
def fireDisplayTimer (s : Sys) (id : Nat) : Sys :=
  match s.pendingDisplay.find? (fun p => p.1 == id) with
  | none => s
  | some (_, t) =>
      let s1 := { s with pendingDisplay := s.pendingDisplay.filter (fun p => p.1 != id) }
      if s1.slideshowIsRunning then
        toggleProgressBar s1 (some t)
      else
        s1

/-- Asynchronous resolution of sentinel.release(): the then-callback nulls
the sentinel reference. -/
def wakeLockReleaseResolved (s : Sys) : Sys :=
  { s with wakeLockSentinel := none }

/-- Asynchronous resolution of navigator.wakeLock.request(): the
then-callback saves the sentinel reference (failures are swallowed and change
nothing). -/
def wakeLockRequestResolved (s : Sys) : Sys :=
  { s with wakeLockSentinel := some () }

/-- The sentinel release event listener: when the platform revokes a held
lock, null the sentinel and drop the wake-lock flag. -/
def wakeLockRevoked (s : Sys) : Sys :=
  if s.wakeLockSentinel.isSome then
    { s with wakeLockSentinel := none, wakeLockIsRunning := false }
  else
    s

/-- The external events that can reach the controller: user toggles
(button or space), gallery slide changes, delay adjustments (arrow and
plus/minus keys), timer firings, gallery close, and asynchronous wake-lock
callbacks.  Each event observing the current slide carries its content. -/
inductive Event where
  | toggle (c : Content)
  | slideChange (c : Content)
  | adjustDelay (delta : ℚ) (c : Content)
  | mainTimerFires (id : Nat) (c : Content)
  | displayTimerFires (id : Nat)
  | galleryClose (c : Content)
  | releaseResolved
  | requestResolved
  | revoked
deriving DecidableEq, Repr

/-- One step of the event-driven controller. -/
def step (s : Sys) (e : Event) : Sys :=
  match e with
  | Event.toggle c => setSlideshowState s c
  | Event.slideChange c => onSlideChanged s c
  | Event.adjustDelay delta c => changeSlideshowLength s delta c
  | Event.mainTimerFires id c => fireMainTimer s id c
  | Event.displayTimerFires id => fireDisplayTimer s id
  | Event.galleryClose c => onGalleryClosed s c
  | Event.releaseResolved => wakeLockReleaseResolved s
  | Event.requestResolved => wakeLockRequestResolved s
  | Event.revoked => wakeLockRevoked s

/-- Run a sequence of events. -/
def run (evs : List Event) (s : Sys) : Sys :=
  evs.foldl step s

/-- The constructor argument for setSlideshowLength:
Number(localStorage.getItem(...)) || options.defaultDelayMs.  An absent key
gives Number(null) = 0, which is falsy, as is a stored 0; an unparsable
stored string gives NaN, also falsy — both modelled by none. -/
def initialDelayArg (stored : Option ℚ) (optDelay : ℚ) : ℚ :=
  match stored with
  | some v => if v != 0 then v else optDelay
  | none => optDelay

/-- The state after the constructor: the stored or configured delay passed
through setSlideshowLength, no timers, flags down. -/
def initState (stored : Option ℚ) (optDelay : ℚ)
    (restart keepAwake wakeLock hasCounter : Bool) : Sys :=
  setSlideshowLength
    { defaultDelayMs := optDelay,
      restartOnSlideChange := restart,
      slideshowIsRunning := false,
      slideshowTimerID := none,
      wakeLockIsRunning := false,
      wakeLockSentinel := none,
      supportsKeepAwake := keepAwake,
      supportsWakeLock := wakeLock,
      keepAwakeFlag := false,
      storage := stored,
      hasCounterElement := hasCounter,
      counterText := none,
      progressBarRunning := false,
      nextTimerID := 0,
      pendingMain := [],
      pendingDisplay := [],
      releaseCalls := 0,
      requestCalls := 0 }
    (initialDelayArg stored optDelay)

/-- The timer-slot invariant: the timers pending in the slideshowTimerID
slot form at most a singleton, and a pending one is the one the field
references (after a firing, the field may hold a stale identifier with
nothing pending). -/
def MainInv (s : Sys) : Prop :=
  s.pendingMain = [] ∨
    ∃ id k, s.pendingMain = [(id, k)] ∧ s.slideshowTimerID = some id

/-- A loaded, playing video element with duration 10 s at currentTime 3 s. -/
def exElement : VideoElement :=
  { paused := false, duration := some 10, currentTime := some 3,
    ended := false, readyState := 4, networkState := 1 }

/-- Video content wrapping exElement, playing. -/
def exVideoPlaying : Content :=
  { dataType := some DataType.video, element := exElement, isLoading := false }

/-- Video content wrapping exElement, paused. -/
def exVideoPaused : Content :=
  { dataType := some DataType.video,
    element := { exElement with paused := true }, isLoading := false }

/-- Loaded non-video (image) content. -/
def exImage : Content :=
  { dataType := some DataType.other, element := exElement, isLoading := false }

/-- Video content that has neither ended nor buffered enough data
(readyState 2 is below HAVE_ENOUGH_DATA). -/
def exVideoBuffering : Content :=
  { dataType := some DataType.video,
    element := { exElement with readyState := 2 }, isLoading := false }

/-- A stopped controller with the default 4000 ms delay, nothing persisted,
the Screen Wake Lock API available. -/
def exStopped : Sys :=
  { defaultDelayMs := 4000,
    restartOnSlideChange := false,
    slideshowIsRunning := false,
    slideshowTimerID := none,
    wakeLockIsRunning := false,
    wakeLockSentinel := none,
    supportsKeepAwake := false,
    supportsWakeLock := true,
    keepAwakeFlag := false,
    storage := none,
    hasCounterElement := true,
    counterText := none,
    progressBarRunning := false,
    nextTimerID := 0,
    pendingMain := [],
    pendingDisplay := [],
    releaseCalls := 0,
    requestCalls := 0 }

/-- A controller mid-slideshow: running with a pending advance timer and its
display timer, the wake-lock flag up and a sentinel held, nothing persisted
yet. -/
def exRunning : Sys :=
  { defaultDelayMs := 4000,
    restartOnSlideChange := false,
    slideshowIsRunning := true,
    slideshowTimerID := some 0,
    wakeLockIsRunning := true,
    wakeLockSentinel := some (),
    supportsKeepAwake := false,
    supportsWakeLock := true,
    keepAwakeFlag := false,
    storage := none,
    hasCounterElement := true,
    counterText := none,
    progressBarRunning := true,
    nextTimerID := 2,
    pendingMain := [(0, TimerKind.advance 4000)],
    pendingDisplay := [(1, 4000)],
    releaseCalls := 0,
    requestCalls := 0 }

/-- A running controller on a platform with neither wake-lock API, before
toggleWakeLock has caught up with the running flag. -/
def exRunningNoLockSupport : Sys :=
  { exRunning with
    supportsKeepAwake := false,
    supportsWakeLock := false,
    wakeLockSentinel := none,
    wakeLockIsRunning := false }

/- ------------------------------------------------------------------ -/
/- Helper lemmas about the individual operations.                      -/
/- ------------------------------------------------------------------ -/

theorem toggleProgressBar_eq (s : Sys) (t : Option ℚ) :
    toggleProgressBar s t = { s with progressBarRunning := timeoutTruthy t } := by
  unfold toggleProgressBar
  split <;> simp_all

theorem resetSlideshow_eq (s : Sys) :
    resetSlideshow s =
      match s.slideshowTimerID with
      | some id =>
          { s with
            progressBarRunning := false,
            pendingMain := s.pendingMain.filter (fun p => p.1 != id),
            slideshowTimerID := none }
      | none => { s with progressBarRunning := false } := by
  unfold resetSlideshow
  rw [toggleProgressBar_eq]
  cases s.slideshowTimerID <;> rfl

theorem setSlideshowLength_delay (s : Sys) (d : ℚ) :
    (setSlideshowLength s d).defaultDelayMs = min (max d 1000) INT32_MAX := by
  unfold setSlideshowLength
  dsimp only
  split <;> rfl

theorem setSlideshowLength_frame (s : Sys) (d : ℚ) :
    (setSlideshowLength s d).slideshowIsRunning = s.slideshowIsRunning ∧
    (setSlideshowLength s d).slideshowTimerID = s.slideshowTimerID ∧
    (setSlideshowLength s d).pendingMain = s.pendingMain ∧
    (setSlideshowLength s d).pendingDisplay = s.pendingDisplay ∧
    (setSlideshowLength s d).wakeLockIsRunning = s.wakeLockIsRunning ∧
    (setSlideshowLength s d).progressBarRunning = s.progressBarRunning := by
  unfold setSlideshowLength
  dsimp only
  split <;> exact ⟨rfl, rfl, rfl, rfl, rfl, rfl⟩

theorem setSlideshowLength_storage_inRange (s : Sys) (d : ℚ)
    (h1 : 1000 ≤ d) (h2 : d ≤ INT32_MAX) :
    (setSlideshowLength s d).storage = s.storage := by
  unfold setSlideshowLength
  have heff : min (max d 1000) INT32_MAX = d := by
    rw [max_eq_left h1, min_eq_left h2]
  dsimp only
  split <;> rename_i h
  · rw [heff] at h
    simp at h
  · rfl

theorem toggleWakeLock_frame (s : Sys) :
    (toggleWakeLock s).slideshowIsRunning = s.slideshowIsRunning ∧
    (toggleWakeLock s).wakeLockIsRunning = s.slideshowIsRunning ∧
    (toggleWakeLock s).slideshowTimerID = s.slideshowTimerID ∧
    (toggleWakeLock s).pendingMain = s.pendingMain ∧
    (toggleWakeLock s).pendingDisplay = s.pendingDisplay ∧
    (toggleWakeLock s).progressBarRunning = s.progressBarRunning ∧
    (toggleWakeLock s).defaultDelayMs = s.defaultDelayMs ∧
    (toggleWakeLock s).storage = s.storage ∧
    (toggleWakeLock s).wakeLockSentinel = s.wakeLockSentinel := by
  unfold toggleWakeLock
  split
  · rename_i h
    rw [beq_iff_eq] at h
    exact ⟨rfl, h, rfl, rfl, rfl, rfl, rfl, rfl, rfl⟩
  · split
    · exact ⟨rfl, rfl, rfl, rfl, rfl, rfl, rfl, rfl, rfl⟩
    · split
      · split
        · exact ⟨rfl, rfl, rfl, rfl, rfl, rfl, rfl, rfl, rfl⟩
        · exact ⟨rfl, rfl, rfl, rfl, rfl, rfl, rfl, rfl, rfl⟩
      · exact ⟨rfl, rfl, rfl, rfl, rfl, rfl, rfl, rfl, rfl⟩

theorem mainInv_congr {s s' : Sys}
    (hp : s'.pendingMain = s.pendingMain)
    (ht : s'.slideshowTimerID = s.slideshowTimerID)
    (h : MainInv s) : MainInv s' := by
  unfold MainInv at h ⊢
  rw [hp, ht]
  exact h

theorem resetSlideshow_clears (s : Sys) (h : MainInv s) :
    (resetSlideshow s).pendingMain = [] ∧
      (resetSlideshow s).slideshowTimerID = none := by
  rw [resetSlideshow_eq]
  rcases h with hp0 | ⟨id', k', hp, ht⟩
  · cases htid : s.slideshowTimerID with
    | none => exact ⟨hp0, rfl⟩
    | some id =>
        refine ⟨?_, rfl⟩
        show s.pendingMain.filter (fun p => p.1 != id) = []
        rw [hp0]
        rfl
  · rw [ht]
    refine ⟨?_, rfl⟩
    show s.pendingMain.filter (fun p => p.1 != id') = []
    rw [hp]
    simp

theorem goNext_inv (s : Sys) (c : Content) (h : MainInv s) :
    MainInv (goToNextSlideAfterTimeout s c) := by
  obtain ⟨hp, ht⟩ := resetSlideshow_clears s h
  unfold goToNextSlideAfterTimeout MainInv
  dsimp only
  split
  · right
    refine ⟨(resetSlideshow s).nextTimerID,
      TimerKind.advance (getSlideTimeout (resetSlideshow s) c), ?_, rfl⟩
    show (resetSlideshow s).pendingMain ++ _ = _
    rw [hp]
    rfl
  · right
    refine ⟨(resetSlideshow s).nextTimerID, TimerKind.poll, ?_, rfl⟩
    show (resetSlideshow s).pendingMain ++ _ = _
    rw [hp]
    rfl

theorem setSlideshowState_inv (s : Sys) (c : Content) (h : MainInv s) :
    MainInv (setSlideshowState s c) := by
  unfold setSlideshowState
  dsimp only
  apply mainInv_congr ((toggleWakeLock_frame _).2.2.2.1) ((toggleWakeLock_frame _).2.2.1)
  have h1 : MainInv { s with slideshowIsRunning := !s.slideshowIsRunning } :=
    mainInv_congr rfl rfl h
  split
  · exact goNext_inv _ c h1
  · exact Or.inl (resetSlideshow_clears _ h1).1

theorem changeSlideshowLength_inv (s : Sys) (delta : ℚ) (c : Content)
    (h : MainInv s) : MainInv (changeSlideshowLength s delta c) := by
  unfold changeSlideshowLength
  dsimp only
  split
  · exact h
  · apply goNext_inv
    have h1 : MainInv (setSlideshowLength s (s.defaultDelayMs + delta)) :=
      mainInv_congr (setSlideshowLength_frame _ _).2.2.1
        (setSlideshowLength_frame _ _).2.1 h
    split
    · exact mainInv_congr rfl rfl h1
    · exact mainInv_congr rfl rfl h1

theorem onSlideChanged_inv (s : Sys) (c : Content) (h : MainInv s) :
    MainInv (onSlideChanged s c) := by
  unfold onSlideChanged
  split
  · exact goNext_inv s c h
  · exact h

theorem onGalleryClosed_inv (s : Sys) (c : Content) (h : MainInv s) :
    MainInv (onGalleryClosed s c) := by
  unfold onGalleryClosed
  split
  · exact setSlideshowState_inv s c h
  · exact h

theorem fireMainTimer_inv (s : Sys) (id : Nat) (c : Content) (h : MainInv s) :
    MainInv (fireMainTimer s id c) := by
  unfold fireMainTimer
  split
  · exact h
  · rename_i p k hfind
    rcases h with hp0 | ⟨id', k', hp, ht⟩
    · rw [hp0] at hfind
      simp at hfind
    · rw [hp] at hfind
      by_cases hid : id' = id
      · have hinv1 : MainInv
            { s with pendingMain := s.pendingMain.filter (fun p => p.1 != id) } := by
          left
          show s.pendingMain.filter (fun p => p.1 != id) = []
          rw [hp, hid]
          simp
        cases k with
        | advance t =>
            dsimp only
            split
            · exact onSlideChanged_inv _ _ hinv1
            · exact goNext_inv _ _ (onSlideChanged_inv _ _ hinv1)
        | poll => exact goNext_inv _ _ hinv1
      · rw [List.find?_cons_of_neg] at hfind
        · simp at hfind
        · simp [hid]

theorem fireDisplayTimer_inv (s : Sys) (id : Nat) (h : MainInv s) :
    MainInv (fireDisplayTimer s id) := by
  unfold fireDisplayTimer
  split
  · exact h
  · dsimp only
    split
    · rw [toggleProgressBar_eq]
      exact mainInv_congr rfl rfl h
    · exact mainInv_congr rfl rfl h

theorem wakeLockRevoked_inv (s : Sys) (h : MainInv s) :
    MainInv (wakeLockRevoked s) := by
  unfold wakeLockRevoked
  split
  · exact mainInv_congr rfl rfl h
  · exact h

theorem step_inv (s : Sys) (e : Event) (h : MainInv s) : MainInv (step s e) := by
  cases e with
  | toggle c => exact setSlideshowState_inv s c h
  | slideChange c => exact onSlideChanged_inv s c h
  | adjustDelay delta c => exact changeSlideshowLength_inv s delta c h
  | mainTimerFires id c => exact fireMainTimer_inv s id c h
  | displayTimerFires id => exact fireDisplayTimer_inv s id h
  | galleryClose c => exact onGalleryClosed_inv s c h
  | releaseResolved => exact mainInv_congr rfl rfl h
  | requestResolved => exact mainInv_congr rfl rfl h
  | revoked => exact wakeLockRevoked_inv s h

theorem run_inv (evs : List Event) (s : Sys) (h : MainInv s) :
    MainInv (run evs s) := by
  induction evs generalizing s with
  | nil => exact h
  | cons e rest ih => exact ih (step s e) (step_inv s e h)

theorem initState_inv (stored : Option ℚ) (optDelay : ℚ)
    (restart keepAwake wakeLock hasCounter : Bool) :
    MainInv (initState stored optDelay restart keepAwake wakeLock hasCounter) := by
  unfold MainInv initState
  left
  rw [(setSlideshowLength_frame _ _).2.2.1]

theorem mainInv_length {s : Sys} (h : MainInv s) : s.pendingMain.length ≤ 1 := by
  rcases h with h | ⟨id, k, hp, _⟩
  · rw [h]
    simp
  · rw [hp]
    simp

theorem resetSlideshow_frame (s : Sys) :
    (resetSlideshow s).slideshowIsRunning = s.slideshowIsRunning ∧
    (resetSlideshow s).wakeLockIsRunning = s.wakeLockIsRunning ∧
    (resetSlideshow s).wakeLockSentinel = s.wakeLockSentinel ∧
    (resetSlideshow s).supportsKeepAwake = s.supportsKeepAwake ∧
    (resetSlideshow s).supportsWakeLock = s.supportsWakeLock ∧
    (resetSlideshow s).defaultDelayMs = s.defaultDelayMs ∧
    (resetSlideshow s).storage = s.storage ∧
    (resetSlideshow s).releaseCalls = s.releaseCalls ∧
    (resetSlideshow s).requestCalls = s.requestCalls ∧
    (resetSlideshow s).restartOnSlideChange = s.restartOnSlideChange := by
  rw [resetSlideshow_eq]
  cases s.slideshowTimerID <;>
    exact ⟨rfl, rfl, rfl, rfl, rfl, rfl, rfl, rfl, rfl, rfl⟩

theorem resetSlideshow_timerID (s : Sys) :
    (resetSlideshow s).slideshowTimerID = none := by
  rw [resetSlideshow_eq]
  cases s.slideshowTimerID <;> rfl

theorem resetSlideshow_bar (s : Sys) :
    (resetSlideshow s).progressBarRunning = false := by
  rw [resetSlideshow_eq]
  cases s.slideshowTimerID <;> rfl

theorem goNext_frame (s : Sys) (c : Content) :
    (goToNextSlideAfterTimeout s c).slideshowIsRunning = s.slideshowIsRunning ∧
    (goToNextSlideAfterTimeout s c).wakeLockIsRunning = s.wakeLockIsRunning ∧
    (goToNextSlideAfterTimeout s c).wakeLockSentinel = s.wakeLockSentinel ∧
    (goToNextSlideAfterTimeout s c).supportsKeepAwake = s.supportsKeepAwake ∧
    (goToNextSlideAfterTimeout s c).supportsWakeLock = s.supportsWakeLock ∧
    (goToNextSlideAfterTimeout s c).defaultDelayMs = s.defaultDelayMs ∧
    (goToNextSlideAfterTimeout s c).storage = s.storage ∧
    (goToNextSlideAfterTimeout s c).releaseCalls = s.releaseCalls ∧
    (goToNextSlideAfterTimeout s c).requestCalls = s.requestCalls ∧
    (goToNextSlideAfterTimeout s c).restartOnSlideChange = s.restartOnSlideChange := by
  unfold goToNextSlideAfterTimeout
  dsimp only
  split <;>
    exact ⟨(resetSlideshow_frame s).1, (resetSlideshow_frame s).2.1,
      (resetSlideshow_frame s).2.2.1, (resetSlideshow_frame s).2.2.2.1,
      (resetSlideshow_frame s).2.2.2.2.1, (resetSlideshow_frame s).2.2.2.2.2.1,
      (resetSlideshow_frame s).2.2.2.2.2.2.1, (resetSlideshow_frame s).2.2.2.2.2.2.2.1,
      (resetSlideshow_frame s).2.2.2.2.2.2.2.2.1,
      (resetSlideshow_frame s).2.2.2.2.2.2.2.2.2⟩

theorem setSlideshowState_on_eq (s : Sys) (c : Content)
    (h : s.slideshowIsRunning = false) :
    setSlideshowState s c =
      toggleWakeLock
        (goToNextSlideAfterTimeout { s with slideshowIsRunning := true } c) := by
  unfold setSlideshowState
  dsimp only
  rw [h]
  rfl

theorem setSlideshowState_off_eq (s : Sys) (c : Content)
    (h : s.slideshowIsRunning = true) :
    setSlideshowState s c =
      toggleWakeLock (resetSlideshow { s with slideshowIsRunning := false }) := by
  unfold setSlideshowState
  dsimp only
  rw [h]
  rfl

theorem fireDisplayTimer_stopped (s : Sys) (id : Nat)
    (h : s.slideshowIsRunning = false) :
    (fireDisplayTimer s id).progressBarRunning = s.progressBarRunning := by
  unfold fireDisplayTimer
  split
  · rfl
  · dsimp only
    rw [h]
    rfl

theorem changeSlideshowLength_storage_running (s : Sys) (delta : ℚ) (c : Content)
    (h : s.slideshowIsRunning = true) :
    (changeSlideshowLength s delta c).storage =
      some (min (max (s.defaultDelayMs + delta) 1000) INT32_MAX) := by
  unfold changeSlideshowLength
  dsimp only
  rw [h]
  show (goToNextSlideAfterTimeout _ c).storage = _
  rw [(goNext_frame _ _).2.2.2.2.2.2.1]
  split
  · show some ((setSlideshowLength s (s.defaultDelayMs + delta)).defaultDelayMs) = _
    rw [setSlideshowLength_delay]
  · show some ((setSlideshowLength s (s.defaultDelayMs + delta)).defaultDelayMs) = _
    rw [setSlideshowLength_delay]

theorem toggleWakeLock_release_none (s : Sys) (hs : s.wakeLockSentinel = none) :
    (toggleWakeLock s).releaseCalls = s.releaseCalls := by
  unfold toggleWakeLock
  dsimp only
  split
  · rfl
  · split
    · rfl
    · split
      · rw [hs]
      · rfl

theorem toggleWakeLock_release_sentinel (s : Sys)
    (hne : s.wakeLockIsRunning ≠ s.slideshowIsRunning)
    (ha : s.supportsKeepAwake = false) (hw : s.supportsWakeLock = true)
    (hs : s.wakeLockSentinel = some ()) :
    (toggleWakeLock s).releaseCalls = s.releaseCalls + 1 := by
  have hbe : (s.wakeLockIsRunning == s.slideshowIsRunning) = false := by
    simp [hne]
  unfold toggleWakeLock
  dsimp only
  rw [hbe, ha, hw, hs]
  rfl

theorem toggleWakeLock_release_le (s : Sys) :
    (toggleWakeLock s).releaseCalls ≤ s.releaseCalls + 1 := by
  unfold toggleWakeLock
  dsimp only
  split
  · exact Nat.le_succ _
  · split
    · exact Nat.le_succ _
    · split
      · split
        · exact Nat.le_refl _
        · exact Nat.le_succ _
      · exact Nat.le_succ _

/- ------------------------------------------------------------------ -/
/- Claim theorems.                                                     -/
/- ------------------------------------------------------------------ -/

/-- C2: from any constructed state and across every sequence of toggle,
slide-change, delay-adjust, timer-fire, close and wake-lock events, at most
one advance timer is ever pending: the scheduling routine always clears the
outstanding slideshowTimerID timer before starting a new one. -/
theorem C2_at_most_one_advance_timer (stored : Option ℚ) (optDelay : ℚ)
    (restart keepAwake wakeLock hasCounter : Bool) (evs : List Event) :
    ((run evs (initState stored optDelay restart keepAwake wakeLock
        hasCounter)).pendingMain.filter isAdvanceTimer).length ≤ 1 := by
  have h := run_inv evs _
    (initState_inv stored optDelay restart keepAwake wakeLock hasCounter)
  exact le_trans (List.length_filter_le _ _) (mainInv_length h)

/-- C1: for every delay d passed to setSlideshowLength, the resulting
options.defaultDelayMs satisfies 1000 <= effective <= INT32_MAX, and equals
d whenever d is already within those bounds. -/
theorem C1_delay_clamped (s : Sys) (d : ℚ) :
    (1000 ≤ (setSlideshowLength s d).defaultDelayMs ∧
      (setSlideshowLength s d).defaultDelayMs ≤ INT32_MAX) ∧
    (1000 ≤ d → d ≤ INT32_MAX → (setSlideshowLength s d).defaultDelayMs = d) := by
  rw [setSlideshowLength_delay]
  refine ⟨⟨le_min (le_max_right _ _) (by norm_num [INT32_MAX]), min_le_right _ _⟩, ?_⟩
  intro h1 h2
  rw [max_eq_left h1, min_eq_left h2]

/-- Witness for C1 at the in-bounds request 5000 ms. -/
theorem C1_delay_clamped_witness :
    (1000 ≤ (5000 : ℚ) ∧ (5000 : ℚ) ≤ INT32_MAX) ∧
    (setSlideshowLength exStopped 5000).defaultDelayMs = 5000 :=
  ⟨⟨by norm_num, by norm_num [INT32_MAX]⟩,
    (C1_delay_clamped exStopped 5000).2 (by norm_num) (by norm_num [INT32_MAX])⟩

/-- C4: getSlideTimeout gives the default delay for non-video content, for a
paused video and for a video whose duration or currentTime is NaN; a playing
loaded video gives its remaining duration in milliseconds; in particular a
playing video at 3 s of 10 s gives 7000 ms and the same video paused gives
the default. -/
theorem C4_getSlideTimeout_cases (s : Sys) (c : Content) :
    (isVideoContent c = false → getSlideTimeout s c = s.defaultDelayMs) ∧
    (isVideoContent c = true → c.element.paused = true →
      getSlideTimeout s c = s.defaultDelayMs) ∧
    (isVideoContent c = true → c.element.paused = false →
      (c.element.duration = none ∨ c.element.currentTime = none) →
      getSlideTimeout s c = s.defaultDelayMs) ∧
    (∀ dur cur : ℚ, isVideoContent c = true → c.element.paused = false →
      c.element.duration = some dur → c.element.currentTime = some cur →
      getSlideTimeout s c = (dur - cur) * 1000) ∧
    getSlideTimeout s exVideoPlaying = 7000 ∧
    getSlideTimeout s exVideoPaused = s.defaultDelayMs := by
  refine ⟨?_, ?_, ?_, ?_, ?_, ?_⟩
  · intro h
    simp [getSlideTimeout, h]
  · intro h hp
    simp [getSlideTimeout, h, hp]
  · intro h hp hnan
    cases hnan with
    | inl hd => simp [getSlideTimeout, h, hp, hd]
    | inr hc =>
        cases hd : c.element.duration <;>
          simp [getSlideTimeout, h, hp, hd, hc]
  · intro dur cur h hp hd hc
    simp [getSlideTimeout, h, hp, hd, hc]
  · norm_num [getSlideTimeout, exVideoPlaying, exElement, isVideoContent]
  · simp [getSlideTimeout, exVideoPaused, exElement, isVideoContent]

/-- Witness for C4: the paused 10 s video and the playing one, at the default
stopped state. -/
theorem C4_getSlideTimeout_cases_witness :
    getSlideTimeout exStopped exVideoPaused = exStopped.defaultDelayMs ∧
    getSlideTimeout exStopped exVideoPlaying = 7000 :=
  ⟨(C4_getSlideTimeout_cases exStopped exVideoPaused).2.1 rfl rfl,
    (C4_getSlideTimeout_cases exStopped exVideoPlaying).2.2.2.2.1⟩

/-- C5: slideContentHasLoaded is true for an ended video regardless of other
fields, false for a non-ended video with readyState below HAVE_ENOUGH_DATA,
and for non-video content it is true iff isLoading() is false. -/
theorem C5_slideContentHasLoaded_cases (c : Content) :
    (isVideoContent c = true → c.element.ended = true →
      slideContentHasLoaded c = true) ∧
    (isVideoContent c = true → c.element.ended = false →
      c.element.readyState < HAVE_ENOUGH_DATA → slideContentHasLoaded c = false) ∧
    (isVideoContent c = false →
      (slideContentHasLoaded c = true ↔ c.isLoading = false)) := by
  refine ⟨?_, ?_, ?_⟩
  · intro h he
    simp [slideContentHasLoaded, h, he]
  · intro h he hrs
    have hne : c.element.readyState ≠ HAVE_ENOUGH_DATA := Nat.ne_of_lt hrs
    simp [slideContentHasLoaded, h, he, hne]
  · intro h
    simp [slideContentHasLoaded, h]

/-- Witness for C5: a buffering video (readyState 2) is not loaded, a loaded
image is. -/
theorem C5_slideContentHasLoaded_cases_witness :
    slideContentHasLoaded exVideoBuffering = false ∧
    slideContentHasLoaded exImage = true :=
  ⟨(C5_slideContentHasLoaded_cases exVideoBuffering).2.1 rfl rfl (by decide),
    ((C5_slideContentHasLoaded_cases exImage).2.2 rfl).mpr rfl⟩

/-- C7: changeSlideshowLength is a complete no-op when the slideshow is not
running: the state (delay, storage, counter text, timers, progress bar) is
returned unchanged. -/
theorem C7_adjustDelay_noop_when_stopped (s : Sys) (delta : ℚ) (c : Content)
    (h : s.slideshowIsRunning = false) :
    changeSlideshowLength s delta c = s := by
  unfold changeSlideshowLength
  simp [h]

/-- Witness for C7: adjusting by 1000 ms on the stopped controller changes
nothing. -/
theorem C7_adjustDelay_noop_when_stopped_witness :
    changeSlideshowLength exStopped 1000 exImage = exStopped :=
  C7_adjustDelay_noop_when_stopped exStopped 1000 exImage rfl

/-- C10: after every return of toggleWakeLock the wake-lock flag equals the
running flag (which toggleWakeLock does not change), on every platform and
for every sentinel state; in particular on a platform with no wake-lock
support the flag can be true while no sentinel is held. -/
theorem C10_wakeLock_flag_tracks_running (s : Sys) :
    ((toggleWakeLock s).wakeLockIsRunning = s.slideshowIsRunning ∧
      (toggleWakeLock s).slideshowIsRunning = s.slideshowIsRunning) ∧
    ((toggleWakeLock exRunningNoLockSupport).wakeLockIsRunning = true ∧
      (toggleWakeLock exRunningNoLockSupport).wakeLockSentinel = none) := by
  refine ⟨⟨(toggleWakeLock_frame s).2.1, (toggleWakeLock_frame s).1⟩, ?_, ?_⟩
  · rw [(toggleWakeLock_frame exRunningNoLockSupport).2.1]
    rfl
  · rw [(toggleWakeLock_frame exRunningNoLockSupport).2.2.2.2.2.2.2.2]
    rfl

/-- C3: from a Stopped state (not running, no pending timer, wake-lock flag
down), toggling twice returns to exactly that observable state: not running,
slideshowTimerID null, wake-lock flag false. -/
theorem C3_toggle_twice_from_stopped (s : Sys) (c c2 : Content)
    (h1 : s.slideshowIsRunning = false)
    (h2 : s.slideshowTimerID = none)
    (h3 : s.wakeLockIsRunning = false) :
    (setSlideshowState (setSlideshowState s c) c2).slideshowIsRunning =
        s.slideshowIsRunning ∧
    (setSlideshowState (setSlideshowState s c) c2).slideshowTimerID =
        s.slideshowTimerID ∧
    (setSlideshowState (setSlideshowState s c) c2).wakeLockIsRunning =
        s.wakeLockIsRunning ∧
    (setSlideshowState (setSlideshowState s c) c2).slideshowIsRunning = false ∧
    (setSlideshowState (setSlideshowState s c) c2).slideshowTimerID = none ∧
    (setSlideshowState (setSlideshowState s c) c2).wakeLockIsRunning = false := by
  have hr1 : (setSlideshowState s c).slideshowIsRunning = true := by
    rw [setSlideshowState_on_eq s c h1]
    exact ((toggleWakeLock_frame _).1).trans ((goNext_frame _ _).1)
  have hrun :
      (setSlideshowState (setSlideshowState s c) c2).slideshowIsRunning = false := by
    rw [setSlideshowState_off_eq _ c2 hr1]
    exact ((toggleWakeLock_frame _).1).trans ((resetSlideshow_frame _).1)
  have htim :
      (setSlideshowState (setSlideshowState s c) c2).slideshowTimerID = none := by
    rw [setSlideshowState_off_eq _ c2 hr1]
    exact ((toggleWakeLock_frame _).2.2.1).trans (resetSlideshow_timerID _)
  have hwl :
      (setSlideshowState (setSlideshowState s c) c2).wakeLockIsRunning = false := by
    rw [setSlideshowState_off_eq _ c2 hr1]
    exact ((toggleWakeLock_frame _).2.1).trans ((resetSlideshow_frame _).1)
  exact ⟨hrun.trans h1.symm, htim.trans h2.symm, hwl.trans h3.symm, hrun, htim, hwl⟩

/-- Witness for C3: toggling twice on the freshly constructed stopped
controller. -/
theorem C3_toggle_twice_from_stopped_witness :
    (setSlideshowState (setSlideshowState exStopped exImage)
        exImage).slideshowIsRunning = false ∧
    (setSlideshowState (setSlideshowState exStopped exImage)
        exImage).slideshowTimerID = none ∧
    (setSlideshowState (setSlideshowState exStopped exImage)
        exImage).wakeLockIsRunning = false := by
  have h := C3_toggle_twice_from_stopped exStopped exImage exImage rfl rfl rfl
  exact ⟨h.2.2.2.1, h.2.2.2.2.1, h.2.2.2.2.2⟩

/-- C6 counterexample: with the slideshow running at 4000 ms and nothing in
storage, requesting 5000 ms (in bounds, no clamping) through
changeSlideshowLength still changes the persisted value, because
changeSlideshowLength writes storage unconditionally after the clamp. -/
theorem C6_counterexample :
    exRunning.defaultDelayMs + 1000 = 5000 ∧
    (1000 ≤ (5000 : ℚ) ∧ (5000 : ℚ) ≤ INT32_MAX) ∧
    (changeSlideshowLength exRunning 1000 exImage).storage ≠ exRunning.storage := by
  refine ⟨by norm_num [exRunning], ⟨by norm_num, by norm_num [INT32_MAX]⟩, ?_⟩
  rw [changeSlideshowLength_storage_running exRunning 1000 exImage rfl]
  simp [exRunning]

/-- C6 amended: setSlideshowLength leaves storage unchanged for every
in-bounds request, but changeSlideshowLength always persists the updated
(clamped) delay when the slideshow is running; when stopped it leaves
storage unchanged. -/
theorem C6_amended_persistence (s : Sys) (d delta : ℚ) (c : Content) :
    (1000 ≤ d → d ≤ INT32_MAX → (setSlideshowLength s d).storage = s.storage) ∧
    (s.slideshowIsRunning = true →
      (changeSlideshowLength s delta c).storage =
        some (min (max (s.defaultDelayMs + delta) 1000) INT32_MAX)) ∧
    (s.slideshowIsRunning = false →
      (changeSlideshowLength s delta c).storage = s.storage) := by
  refine ⟨setSlideshowLength_storage_inRange s d,
    changeSlideshowLength_storage_running s delta c, ?_⟩
  intro h
  unfold changeSlideshowLength
  simp [h]

/-- Witness for C6 amended: an in-bounds setSlideshowLength does not touch
storage, while a running changeSlideshowLength writes the new delay. -/
theorem C6_amended_persistence_witness :
    (setSlideshowLength exStopped 5000).storage = exStopped.storage ∧
    (changeSlideshowLength exRunning 1000 exImage).storage =
      some (min (max (exRunning.defaultDelayMs + 1000) 1000) INT32_MAX) :=
  ⟨(C6_amended_persistence exStopped 5000 0 exImage).1 (by norm_num)
      (by norm_num [INT32_MAX]),
    (C6_amended_persistence exRunning 0 1000 exImage).2.1 rfl⟩

/-- C8: closing the gallery while running stops the slideshow, clears the
timer handle, drops the wake-lock flag, and calls sentinel release exactly
once when a sentinel is held on the Screen Wake Lock API path, never when no
sentinel is held, and never more than once. -/
theorem C8_close_releases_once (s : Sys) (c : Content)
    (h1 : s.slideshowIsRunning = true)
    (h2 : s.wakeLockIsRunning = true) :
    (onGalleryClosed s c).slideshowIsRunning = false ∧
    (onGalleryClosed s c).slideshowTimerID = none ∧
    (onGalleryClosed s c).wakeLockIsRunning = false ∧
    (s.supportsKeepAwake = false → s.supportsWakeLock = true →
      s.wakeLockSentinel = some () →
      (onGalleryClosed s c).releaseCalls = s.releaseCalls + 1) ∧
    (s.wakeLockSentinel = none →
      (onGalleryClosed s c).releaseCalls = s.releaseCalls) ∧
    (onGalleryClosed s c).releaseCalls ≤ s.releaseCalls + 1 := by
  have hoc : onGalleryClosed s c = setSlideshowState s c := by
    unfold onGalleryClosed
    rw [h1]
    rfl
  rw [hoc, setSlideshowState_off_eq s c h1]
  have hXr : (resetSlideshow { s with slideshowIsRunning := false
      }).slideshowIsRunning = false := (resetSlideshow_frame _).1
  have hXw : (resetSlideshow { s with slideshowIsRunning := false
      }).wakeLockIsRunning = true := ((resetSlideshow_frame _).2.1).trans h2
  have hXs : (resetSlideshow { s with slideshowIsRunning := false
      }).wakeLockSentinel = s.wakeLockSentinel := (resetSlideshow_frame _).2.2.1
  have hXa : (resetSlideshow { s with slideshowIsRunning := false
      }).supportsKeepAwake = s.supportsKeepAwake := (resetSlideshow_frame _).2.2.2.1
  have hXwl : (resetSlideshow { s with slideshowIsRunning := false
      }).supportsWakeLock = s.supportsWakeLock := (resetSlideshow_frame _).2.2.2.2.1
  have hXrel : (resetSlideshow { s with slideshowIsRunning := false
      }).releaseCalls = s.releaseCalls := (resetSlideshow_frame _).2.2.2.2.2.2.2.1
  refine ⟨?_, ?_, ?_, ?_, ?_, ?_⟩
  · exact ((toggleWakeLock_frame _).1).trans hXr
  · exact ((toggleWakeLock_frame _).2.2.1).trans (resetSlideshow_timerID _)
  · exact ((toggleWakeLock_frame _).2.1).trans hXr
  · intro ha hw hs
    have hne : (resetSlideshow { s with slideshowIsRunning := false
        }).wakeLockIsRunning ≠ (resetSlideshow { s with slideshowIsRunning := false
        }).slideshowIsRunning := by
      rw [hXw, hXr]
      simp
    rw [toggleWakeLock_release_sentinel _ hne (hXa.trans ha) (hXwl.trans hw)
      (hXs.trans hs), hXrel]
  · intro hs
    rw [toggleWakeLock_release_none _ (hXs.trans hs), hXrel]
  · exact le_trans (toggleWakeLock_release_le _) (by rw [hXrel])

/-- Witness for C8: closing the gallery on the running controller that holds
a sentinel releases it exactly once. -/
theorem C8_close_releases_once_witness :
    (onGalleryClosed exRunning exImage).slideshowIsRunning = false ∧
    (onGalleryClosed exRunning exImage).slideshowTimerID = none ∧
    (onGalleryClosed exRunning exImage).wakeLockIsRunning = false ∧
    (onGalleryClosed exRunning exImage).releaseCalls = exRunning.releaseCalls + 1 := by
  have h := C8_close_releases_once exRunning exImage rfl rfl
  exact ⟨h.1, h.2.1, h.2.2.1, h.2.2.2.1 rfl rfl rfl⟩

/-- C9: a display-start callback firing after the slideshow was toggled off
does not mark the progress bar running: the callback re-checks the running
flag, and the stop itself had reset the bar. -/
theorem C9_stale_display_callback_guard (s : Sys) (c : Content) (id : Nat)
    (h : s.slideshowIsRunning = true) :
    (fireDisplayTimer (setSlideshowState s c) id).progressBarRunning = false := by
  have hr : (setSlideshowState s c).slideshowIsRunning = false := by
    rw [setSlideshowState_off_eq s c h]
    exact ((toggleWakeLock_frame _).1).trans ((resetSlideshow_frame _).1)
  have hbar : (setSlideshowState s c).progressBarRunning = false := by
    rw [setSlideshowState_off_eq s c h]
    exact ((toggleWakeLock_frame _).2.2.2.2.2.1).trans (resetSlideshow_bar _)
  rw [fireDisplayTimer_stopped _ id hr, hbar]

/-- Witness for C9: the pending display timer of the running controller
fires after a stop toggle and leaves the bar stopped. -/
theorem C9_stale_display_callback_guard_witness :
    (fireDisplayTimer (setSlideshowState exRunning exImage)
        1).progressBarRunning = false :=
  C9_stale_display_callback_guard exRunning exImage 1 rfl

end PhotoSwipeSlideshow
